import Mathlib

/-!
# Verification of the oral-cancer dual-model inference engine

Shallow embedding of `src/ml_models/inference.py` (the repository's core
inference module) and proofs of the specification's claims about it.

Modelling conventions:
* Machine floats are modelled by exact rationals `ℚ`.
* Python exceptions are modelled by `Except PyError` values; an exception that
  the source catches with `try/except` corresponds to a `match` on the
  `Except`.
* Side effects that claims quantify over (checkpoint-load outcomes, image
  decode outcomes, the model's forward pass) are inputs to the embedded
  functions; the observable actions (model loads, decode attempts, forward
  passes) are recorded as an explicit event trace.
-/

/-- A Python exception: its class name and message. -/
structure PyError where
  kind : String
  msg : String
deriving DecidableEq, Repr

/-- The dict returned by `OralCancerModel.predict` (inference.py lines
189-195): prediction label, confidence, raw probability of the cancer class,
processing time, and the upper-cased model tag. -/
structure PredictionResult where
  prediction : String
  confidence : ℚ
  raw_probability : ℚ
  processing_time : ℚ
  model : String
deriving DecidableEq, Repr

/-- Wall-clock durations of the three stages executed inside `predict`
(lines 168-182): image decode, the TRANSFORM call, and the forward pass. -/
structure Durations where
  decode : ℚ
  preprocess : ℚ
  forwardPass : ℚ
deriving DecidableEq, Repr

/-- Observable actions of the inference module: a checkpoint load attempt
(`load_model`, called from `__init__`), an image decode attempt
(`Image.open(...).convert` inside `predict`), and a forward pass. -/
inductive Event where
  | loadModel (variant : String)
  | decodeImage (variant : String)
  | forwardPass (variant : String)
deriving DecidableEq, Repr

/-! ## Preprocessing pipeline (inference.py lines 31-36 and 174)

`TRANSFORM = Compose([Resize((224,224)), ToTensor(), Normalize(mean, std)])`.
A decoded RGB image is a pixel grid of integer intensities (held as `ℚ`);
the output tensor is channel-major.  The bilinear resampling arithmetic of
`transforms.Resize` is written out in exact rational arithmetic. -/

/-- A decoded RGB image: height, width, and pixel intensities (0..255) per
channel, as produced by `Image.open(...).convert('RGB')`. -/
structure RawImage where
  h : Nat
  w : Nat
  px : Nat → Nat → Fin 3 → ℚ

/-- A channel-major image tensor, as produced by `ToTensor`. -/
abbrev Tensor3 : Type := Fin 3 → Nat → Nat → ℚ

/-- `IMAGE_SIZE = 224` (inference.py line 31). -/
def IMAGE_SIZE : Nat := 224

/-- Per-channel normalization mean `[0.485, 0.456, 0.406]` (line 35). -/
def meanC : Fin 3 → ℚ
  | 0 => 485/1000
  | 1 => 456/1000
  | 2 => 406/1000

/-- Per-channel normalization std `[0.229, 0.224, 0.225]` (line 35). -/
def stdC : Fin 3 → ℚ
  | 0 => 229/1000
  | 1 => 224/1000
  | 2 => 225/1000

/-- Source coordinate sampled for output index `outIdx` when resizing a
length-`srcLen` axis to length `outLen` (align-corners-false convention of
`transforms.Resize`). -/
def srcCoord (outIdx srcLen outLen : Nat) : ℚ :=
  ((outIdx : ℚ) + 1/2) * (srcLen : ℚ) / (outLen : ℚ) - 1/2

/-- Clamp an integer index into `[0, len - 1]`. -/
def clampIdx (i : Int) (len : Nat) : Nat :=
  (max 0 (min i ((len : Int) - 1))).toNat

/-- Bilinear sample of an image at fractional coordinates `(y, x)`. -/
def bilinearSample (img : RawImage) (y x : ℚ) (c : Fin 3) : ℚ :=
  let y0 : Int := ⌊y⌋
  let x0 : Int := ⌊x⌋
  let dy : ℚ := y - (y0 : ℚ)
  let dx : ℚ := x - (x0 : ℚ)
  let p00 := img.px (clampIdx y0 img.h) (clampIdx x0 img.w) c
  let p01 := img.px (clampIdx y0 img.h) (clampIdx (x0 + 1) img.w) c
  let p10 := img.px (clampIdx (y0 + 1) img.h) (clampIdx x0 img.w) c
  let p11 := img.px (clampIdx (y0 + 1) img.h) (clampIdx (x0 + 1) img.w) c
  (1 - dy) * ((1 - dx) * p00 + dx * p01) + dy * ((1 - dx) * p10 + dx * p11)

/-- `transforms.Resize((IMAGE_SIZE, IMAGE_SIZE))` (line 33). -/
def resizeToImageSize (img : RawImage) : Nat → Nat → Fin 3 → ℚ :=
  fun i j c =>
    bilinearSample img (srcCoord i img.h IMAGE_SIZE) (srcCoord j img.w IMAGE_SIZE) c

/-- `transforms.ToTensor()` (line 34): HWC integer intensities to CHW values
scaled into `[0,1]` by `1/255`. -/
def toTensor (pxl : Nat → Nat → Fin 3 → ℚ) : Tensor3 :=
  fun c i j => pxl i j c / 255

/-- `transforms.Normalize(mean, std)` (line 35). -/
def normalizeChannels (t : Tensor3) : Tensor3 :=
  fun c i j => (t c i j - meanC c) / stdC c

/-- `TRANSFORM` (lines 32-36): the composed preprocessing pipeline. -/
def TRANSFORM (img : RawImage) : Tensor3 :=
  normalizeChannels (toTensor (resizeToImageSize img))

/-- The preprocessing performed inside `OralCancerModel.predict`
(line 174): `TRANSFORM(image)`.  The method receives `self` (whose
`model_type` is the variant), but the transform reads no model state; the
unused `model_type` argument records that fact. -/
def preprocessForVariant (model_type : String) (img : RawImage) : Tensor3 :=
  TRANSFORM img

/-! ## Single-model prediction (inference.py lines 108-199) -/

/-- Lines 181-195 of `OralCancerModel.predict`, applied to the softmax
output probabilities `(p0, p1)` of line 180.  `torch.argmax` returns the
first maximal index, so the predicted class is `1` exactly when `p0 < p1`;
the confidence is the probability of the predicted class; the label maps
index 1 to Cancer and index 0 to Non-Cancer (line 185); the raw probability
is `probs[0, 1]` (line 192). -/
def predictFromProbs (model_type : String) (p0 p1 : ℚ)
    (processing_time : ℚ) : PredictionResult :=
  let predicted_class : Nat := if p0 < p1 then 1 else 0
  let confidence : ℚ := if predicted_class = 1 then p1 else p0
  let prediction_class : String := if predicted_class = 1 then "Cancer" else "Non-Cancer"
  { prediction := prediction_class
    confidence := confidence
    raw_probability := p1
    processing_time := processing_time
    model := model_type.toUpper }

/-- `OralCancerModel.predict` (lines 154-199).  `decodeRes` is the outcome of
`Image.open(image_path).convert('RGB')`; `forward` is the composite of the
model's forward pass and the softmax of line 180, producing the two class
probabilities (it raises `Except.error` on a runtime inference failure);
`d` gives the stage durations and `t0` the clock value when the call starts.
Line 165 reads `start_time` before the decode, so the measured interval spans
decode, transform and forward pass.  Exceptions propagate to the caller
(re-raised at line 199).  Returns the outcome paired with the event trace. -/
def OralCancerModel.predict (model_type : String)
    (decodeRes : Except PyError RawImage)
    (forward : Tensor3 → Except PyError (ℚ × ℚ))
    (d : Durations) (t0 : ℚ) :
    Except PyError PredictionResult × List Event :=
  let start_time := t0
  match decodeRes with
  | .error e => (.error e, [Event.decodeImage model_type])
  | .ok image =>
      let t1 := start_time + d.decode
      let image_tensor := preprocessForVariant model_type image
      let t2 := t1 + d.preprocess
      match forward image_tensor with
      | .error e => (.error e, [Event.decodeImage model_type, Event.forwardPass model_type])
      | .ok (p0, p1) =>
          let t3 := t2 + d.forwardPass
          let processing_time := t3 - start_time
          (.ok (predictFromProbs model_type p0 p1 processing_time),
           [Event.decodeImage model_type, Event.forwardPass model_type])

/-- `OralCancerModel.__init__` (lines 111-114): stores the model type and
immediately runs `load_model`, whose outcome is `loadRes`; a load failure
is re-raised (line 152), aborting construction. -/
def OralCancerModel.construct (model_type : String)
    (loadRes : Except PyError Unit) :
    Except PyError Unit × List Event :=
  (loadRes, [Event.loadModel model_type])

/-- One `try` block of `predict_with_both_models` (lines 214-220 for regnet,
222-228 for vgg16): construct the `OralCancerModel` (loading its checkpoint)
and run `predict`; any exception is caught and the entry becomes `None`. -/
def tryVariant (variant : String) (loadRes : Except PyError Unit)
    (decodeRes : Except PyError RawImage)
    (forward : Tensor3 → Except PyError (ℚ × ℚ))
    (d : Durations) (t0 : ℚ) :
    Option PredictionResult × List Event :=
  let ini := OralCancerModel.construct variant loadRes
  match ini.1 with
  | .error _ => (none, ini.2)
  | .ok _ =>
      let pr := OralCancerModel.predict variant decodeRes forward d t0
      (match pr.1 with
       | .ok r => some r
       | .error _ => none,
       ini.2 ++ pr.2)

/-- The environment a `predict_with_both_models` call runs in: the outcome of
each variant's checkpoint load, the (deterministic, hence shared) outcome of
decoding the image at `image_path`, each variant's forward pass, and timing
data. -/
structure EnsembleEnv where
  regnetLoad : Except PyError Unit
  vggLoad : Except PyError Unit
  decodeRes : Except PyError RawImage
  regnetForward : Tensor3 → Except PyError (ℚ × ℚ)
  vggForward : Tensor3 → Except PyError (ℚ × ℚ)
  d : Durations
  t0 : ℚ

/-- `predict_with_both_models` (lines 202-230): run the regnet attempt, then
the vgg16 attempt, each in its own `try/except` that maps any exception to a
`None` entry, and return the results dict (entry order is insertion order:
regnet first).  Every exception is caught, so the function always returns
normally; it is paired with the event trace of the call. -/
def predict_with_both_models (env : EnsembleEnv) :
    List (String × Option PredictionResult) × List Event :=
  let r1 := tryVariant "regnet" env.regnetLoad env.decodeRes env.regnetForward env.d env.t0
  let r2 := tryVariant "vgg16" env.vggLoad env.decodeRes env.vggForward env.d env.t0
  ([("regnet", r1.1), ("vgg16", r2.1)], r1.2 ++ r2.2)

/-- The event trace of a process that makes `n` successive
`predict_with_both_models` calls in the same environment.  The module holds
no cache: each call constructs fresh `OralCancerModel` objects (lines 216
and 224). -/
def processTrace (env : EnsembleEnv) : Nat → List Event
  | 0 => []
  | n + 1 => processTrace env n ++ (predict_with_both_models env).2

/-- Number of checkpoint-load attempts for `variant` in an event trace. -/
def loadCount (variant : String) : List Event → Nat
  | [] => 0
  | Event.loadModel v :: es => (if v = variant then 1 else 0) + loadCount variant es
  | _ :: es => loadCount variant es

/-! ## Checkpoint loading (inference.py lines 116-152)

`torch.load` may return any pickled value; the loader inspects it
structurally.  A tensor is modelled by its shape and flat data; a state
dict by an association list. -/

/-- A value as returned by `torch.load`: a tensor (shape and flat data), a
string-keyed mapping, or other metadata (e.g. an epoch number). -/
inductive TorchValue where
  | tensor (shape : List Nat) (data : List ℚ)
  | dict (entries : List (String × TorchValue))
  | num (n : Nat)

/-- The parameter shapes of a constructed architecture, i.e. what
`load_state_dict` checks a checkpoint against. -/
structure Arch where
  params : List (String × List Nat)

/-- Shape of a `TorchValue` when it is a tensor. -/
def tensorShape : TorchValue → Option (List Nat)
  | .tensor s _ => some s
  | _ => none

/-- Strict `load_state_dict` compatibility: every architecture parameter is
present in the state dict with a tensor of the right shape, and the state
dict has no unexpected keys. -/
def stateDictMatches (arch : Arch) (sd : List (String × TorchValue)) : Bool :=
  (arch.params.all fun p => decide (((sd.lookup p.1).bind tensorShape) = some p.2)) &&
  (sd.all fun e => (arch.params.lookup e.1).isSome)

/-- `self.model.load_state_dict(v)` (lines 126, 128, 137, 139): succeeds
exactly when `v` is a mapping strictly compatible with the architecture,
installing the checkpoint's weights; otherwise raises. -/
def load_state_dict (arch : Arch) (v : TorchValue) :
    Except PyError (List (String × TorchValue)) :=
  match v with
  | .dict sd =>
      if stateDictMatches arch sd then .ok sd
      else .error ⟨"RuntimeError", "Error in loading state_dict"⟩
  | _ => .error ⟨"TypeError", "state_dict must be a mapping"⟩

/-- Lines 125-128 (and identically 136-139): if the loaded checkpoint is a
dict containing the key `model_state_dict`, the weights are taken from under
that key; otherwise the checkpoint itself is the state dict.  Detection is
purely structural — the function never sees a filename. -/
def selectStateDict (checkpoint : TorchValue) : TorchValue :=
  match checkpoint with
  | .dict entries =>
      match entries.lookup "model_state_dict" with
      | some sd => sd
      | none => .dict entries
  | c => c

/-- The checkpoint-handling core of `OralCancerModel.load_model`
(lines 124-128 / 135-139) for a constructed architecture: select the state
dict from the loaded container and install it. -/
def load_checkpoint (arch : Arch) (checkpoint : TorchValue) :
    Except PyError (List (String × TorchValue)) :=
  load_state_dict arch (selectStateDict checkpoint)

/-! ## Concrete inputs used by counterexamples and witnesses -/

/-- A 1×1 image with all intensities 100. -/
def imgEx : RawImage := ⟨1, 1, fun _ _ _ => 100⟩

/-- A forward pass that returns softmax probabilities `(1/4, 3/4)`. -/
def forwardOkEx : Tensor3 → Except PyError (ℚ × ℚ) :=
  fun _ => .ok (1/4, 3/4)

/-- A successful checkpoint load. -/
def okLoad : Except PyError Unit := .ok ()

/-- Unit stage durations. -/
def dEx : Durations := ⟨1, 1, 1⟩

/-- Environment in which everything succeeds. -/
def envAllOk : EnsembleEnv :=
  ⟨okLoad, okLoad, .ok imgEx, forwardOkEx, forwardOkEx, dEx, 0⟩

/-! ## Claim C1 -/

/-- C1 (claim as stated, refuted at the decision boundary): at softmax output
`(1/2, 1/2)` — a legitimate probability vector, produced e.g. by equal
logits — the raw positive-class probability is `≥ 1/2`, yet the label is
`Non-Cancer`, because `torch.argmax` resolves the tie to index 0.  So
"label is Cancer iff the positive-class probability is at least 0.5" is
false on the code. -/
theorem C1_counterexample :
    ((1 : ℚ)/2 + 1/2 = 1) ∧
    (predictFromProbs "regnet" (1/2) (1/2) 0).raw_probability ≥ 1/2 ∧
    (predictFromProbs "regnet" (1/2) (1/2) 0).prediction = "Non-Cancer" := by
  refine ⟨by norm_num, ?_, ?_⟩ <;> norm_num [predictFromProbs]

/-- C1 (amended): for softmax probabilities `(p0, p1)` summing to 1, the
predicted label is Cancer iff the positive-class probability is strictly
greater than 1/2 (a tie at exactly 1/2 yields Non-Cancer, the argmax with
first-index tie-breaking), and the reported confidence equals the probability
of the predicted class. -/
theorem C1_amended_thm (model_type : String) (p0 p1 t : ℚ)
    (hsum : p0 + p1 = 1) :
    ((predictFromProbs model_type p0 p1 t).prediction = "Cancer" ↔ 1/2 < p1) ∧
    (predictFromProbs model_type p0 p1 t).confidence =
      (if (predictFromProbs model_type p0 p1 t).prediction = "Cancer" then p1 else p0) := by
  by_cases h : p0 < p1
  · have hpred : (predictFromProbs model_type p0 p1 t).prediction = "Cancer" := by
      simp [predictFromProbs, h]
    have hconf : (predictFromProbs model_type p0 p1 t).confidence = p1 := by
      simp [predictFromProbs, h]
    rw [hpred, hconf]
    constructor
    · constructor
      · intro _; linarith
      · intro _; rfl
    · simp
  · have hpred : (predictFromProbs model_type p0 p1 t).prediction = "Non-Cancer" := by
      simp [predictFromProbs, h]
    have hconf : (predictFromProbs model_type p0 p1 t).confidence = p0 := by
      simp [predictFromProbs, h]
    rw [hpred, hconf]
    constructor
    · constructor
      · intro hc; exact absurd hc (by decide)
      · intro hp; exfalso; rw [not_lt] at h; linarith
    · rw [if_neg (by decide)]

/-- C1 witness: the amended claim at the concrete probabilities (1/4, 3/4). -/
theorem C1_amended_witness :
    (((predictFromProbs "regnet" (1/4) (3/4) 2).prediction = "Cancer" ↔ (1:ℚ)/2 < 3/4) ∧
     (predictFromProbs "regnet" (1/4) (3/4) 2).confidence =
       (if (predictFromProbs "regnet" (1/4) (3/4) 2).prediction = "Cancer"
        then (3:ℚ)/4 else 1/4)) :=
  C1_amended_thm "regnet" (1/4) (3/4) 2 (by norm_num)

/-! ## Claim C10 -/

/-- C10: for softmax probabilities `(p0, p1)` (nonnegative, summing to 1),
the reported confidence equals `max(raw_probability, 1 - raw_probability)`
and therefore lies in `[1/2, 1]`; the raw probability reported is `p1`. -/
theorem C10_thm (model_type : String) (p0 p1 t : ℚ) (hsum : p0 + p1 = 1)
    (h0 : 0 ≤ p0) (h1 : 0 ≤ p1) :
    (predictFromProbs model_type p0 p1 t).raw_probability = p1 ∧
    (predictFromProbs model_type p0 p1 t).confidence = max p1 (1 - p1) ∧
    1/2 ≤ (predictFromProbs model_type p0 p1 t).confidence ∧
    (predictFromProbs model_type p0 p1 t).confidence ≤ 1 := by
  have hraw : (predictFromProbs model_type p0 p1 t).raw_probability = p1 := rfl
  by_cases h : p0 < p1
  · have hconf : (predictFromProbs model_type p0 p1 t).confidence = p1 := by
      simp [predictFromProbs, h]
    have hmax : max p1 (1 - p1) = p1 := max_eq_left (by linarith)
    rw [hraw, hconf, hmax]
    exact ⟨rfl, rfl, by linarith, by linarith⟩
  · have hconf : (predictFromProbs model_type p0 p1 t).confidence = p0 := by
      simp [predictFromProbs, h]
    have hmax : max p1 (1 - p1) = 1 - p1 := max_eq_right (by linarith)
    rw [hraw, hconf, hmax]
    rw [not_lt] at h
    exact ⟨rfl, by linarith, by linarith, by linarith⟩

/-- C10 witness: the theorem at the concrete probabilities (1/4, 3/4). -/
theorem C10_witness :
    ((predictFromProbs "vgg16" (1/4) (3/4) 5).raw_probability = 3/4 ∧
     (predictFromProbs "vgg16" (1/4) (3/4) 5).confidence = max (3/4) (1 - 3/4) ∧
     (1:ℚ)/2 ≤ (predictFromProbs "vgg16" (1/4) (3/4) 5).confidence ∧
     (predictFromProbs "vgg16" (1/4) (3/4) 5).confidence ≤ 1) :=
  C10_thm "vgg16" (1/4) (3/4) 5 (by norm_num) (by norm_num) (by norm_num)

/-! ## Claim C9 -/

/-- C9: the preprocessing pipeline is a pure function of the image alone —
two applications, for any two model variants (in particular the same variant
twice), yield identical output tensors.  `TRANSFORM` is a module-level
constant and reads no model state, so the tensor fed to regnet and the one
fed to vgg16 for the same decoded bytes coincide. -/
theorem C9_thm (v1 v2 : String) (img : RawImage) :
    preprocessForVariant v1 img = preprocessForVariant v2 img := rfl

/-! ## Claim C2 -/

/-- Environment where the vgg16 forward pass raises an InferenceError. -/
def envC2a : EnsembleEnv :=
  ⟨okLoad, okLoad, .ok imgEx, forwardOkEx,
   fun _ => .error ⟨"InferenceError", "invalid tensor shape"⟩, dEx, 0⟩

/-- The same environment except that the vgg16 failure has a different
exception kind and message. -/
def envC2b : EnsembleEnv :=
  ⟨okLoad, okLoad, .ok imgEx, forwardOkEx,
   fun _ => .error ⟨"TimeoutError", "inference budget exceeded"⟩, dEx, 0⟩

/-- C2 (claim as stated, refuted): a failed variant's entry is `None`, which
carries no error kind or message — two runs whose vgg16 failures differ in
both kind and message produce identical ensemble outputs, so the entry
cannot be a tagged failure carrying the variant's error kind and message. -/
theorem C2_counterexample :
    predict_with_both_models envC2a = predict_with_both_models envC2b ∧
    ("InferenceError" : String) ≠ "TimeoutError" := by
  exact ⟨rfl, by decide⟩

/-- C2 (amended): `predict_with_both_models` always returns exactly one entry
per registered variant — keys `regnet` then `vgg16`, two entries — each entry
being either a successful PredictionResult or `None` (an untagged failure
marker), regardless of how many variants failed. -/
theorem C2_amended_thm (env : EnsembleEnv) :
    (predict_with_both_models env).1.map Prod.fst = ["regnet", "vgg16"] ∧
    (predict_with_both_models env).1.length = 2 ∧
    ∀ entry ∈ (predict_with_both_models env).1,
      entry.2 = none ∨ ∃ r : PredictionResult, entry.2 = some r := by
  refine ⟨rfl, rfl, ?_⟩
  intro entry _
  cases he : entry.2 with
  | none => exact Or.inl rfl
  | some r => exact Or.inr ⟨r, rfl⟩

/-! ## Claim C3 -/

/-- Environment where the regnet checkpoint file is missing and vgg16 is
intact. -/
def envC3a : EnsembleEnv :=
  ⟨.error ⟨"FileNotFoundError", "regnet_y320_best.pth not found"⟩, okLoad,
   .ok imgEx, forwardOkEx, forwardOkEx, dEx, 0⟩

/-- The same environment except for the message of the regnet load failure. -/
def envC3b : EnsembleEnv :=
  ⟨.error ⟨"RuntimeError", "corrupted checkpoint"⟩, okLoad,
   .ok imgEx, forwardOkEx, forwardOkEx, dEx, 0⟩

/-- C3 (claim as stated, refuted in its tagged-failure part): with regnet's
checkpoint missing and vgg16 intact, the ensemble output is one success plus
one `None` entry, not one success plus a tagged failure — outputs for two
different regnet load-failure causes are identical, so the failure entry
carries neither kind nor message. -/
theorem C3_counterexample :
    predict_with_both_models envC3a = predict_with_both_models envC3b ∧
    (envC3a.regnetLoad ≠ envC3b.regnetLoad) := by
  refine ⟨rfl, by simp [envC3a, envC3b]⟩

/-- C3 (amended): a regnet failure is caught at the ensemble boundary and
recorded as that variant's `None` entry, and never aborts vgg16: the vgg16
entry is exactly what vgg16's standalone attempt produces, unaffected by
regnet's failure. -/
theorem C3_amended_thm (env : EnsembleEnv) (eA : PyError)
    (hA : env.regnetLoad = .error eA) :
    (predict_with_both_models env).1 =
      [("regnet", none),
       ("vgg16",
        (tryVariant "vgg16" env.vggLoad env.decodeRes env.vggForward env.d env.t0).1)] := by
  simp [predict_with_both_models, tryVariant, OralCancerModel.construct, hA]

/-- C3 witness: the amended claim at `envC3a`, where the vgg16 standalone
attempt concretely succeeds with a Cancer prediction at confidence 3/4. -/
theorem C3_amended_witness :
    ((predict_with_both_models envC3a).1 =
      [("regnet", none),
       ("vgg16",
        (tryVariant "vgg16" envC3a.vggLoad envC3a.decodeRes envC3a.vggForward envC3a.d envC3a.t0).1)]) ∧
    (tryVariant "vgg16" envC3a.vggLoad envC3a.decodeRes envC3a.vggForward envC3a.d envC3a.t0).1 =
      some (predictFromProbs "vgg16" (1/4) (3/4) 3) :=
  ⟨C3_amended_thm envC3a ⟨"FileNotFoundError", "regnet_y320_best.pth not found"⟩ rfl,
   by norm_num [tryVariant, OralCancerModel.construct, OralCancerModel.predict,
     envC3a, okLoad, forwardOkEx, dEx, predictFromProbs]⟩

/-! ## Claim C4 -/

/-- Environment where both checkpoints are missing. -/
def envC4 : EnsembleEnv :=
  ⟨.error ⟨"FileNotFoundError", "regnet_y320_best.pth missing"⟩,
   .error ⟨"FileNotFoundError", "vgg16_best.pth missing"⟩,
   .ok imgEx, forwardOkEx, forwardOkEx, dEx, 0⟩

/-- C4 (claim as stated, refuted): when every variant fails,
`predict_with_both_models` does not raise a combined error — it returns
normally, with both entries `None` and no error information; the trace shows
the two load attempts that caused the failures. -/
theorem C4_counterexample :
    (predict_with_both_models envC4).1 = [("regnet", none), ("vgg16", none)] ∧
    (predict_with_both_models envC4).2 =
      [Event.loadModel "regnet", Event.loadModel "vgg16"] :=
  ⟨rfl, rfl⟩

/-- C4 (amended): if both variants' loads fail, `predict_with_both_models`
returns normally with one `None` entry per variant; the individual causes are
discarded, and no combined (or any) error is raised — every exception is
caught inside the function. -/
theorem C4_amended_thm (env : EnsembleEnv) (e1 e2 : PyError)
    (h1 : env.regnetLoad = .error e1) (h2 : env.vggLoad = .error e2) :
    (predict_with_both_models env).1 = [("regnet", none), ("vgg16", none)] := by
  simp [predict_with_both_models, tryVariant, OralCancerModel.construct, h1, h2]

/-- C4 witness: the amended claim at the concrete both-fail environment. -/
theorem C4_amended_witness :
    (predict_with_both_models envC4).1 = [("regnet", none), ("vgg16", none)] :=
  C4_amended_thm envC4 ⟨"FileNotFoundError", "regnet_y320_best.pth missing"⟩
    ⟨"FileNotFoundError", "vgg16_best.pth missing"⟩ rfl rfl

/-! ## Claim C5 -/

/-- Environment where the image bytes cannot be decoded; both checkpoints are
intact. -/
def envC5 : EnsembleEnv :=
  ⟨okLoad, okLoad, .error ⟨"UnidentifiedImageError", "cannot identify image file"⟩,
   forwardOkEx, forwardOkEx, dEx, 0⟩

/-- C5 (claim as stated, refuted): when the input bytes cannot be decoded the
ensemble call does not abort before per-variant execution — both variants'
model loads run, each variant attempts its own decode (preprocessing is
per-variant, not shared), and the call returns normally with both entries
`None` instead of raising a PreprocessingError. -/
theorem C5_counterexample :
    (predict_with_both_models envC5).1 = [("regnet", none), ("vgg16", none)] ∧
    (predict_with_both_models envC5).2 =
      [Event.loadModel "regnet", Event.decodeImage "regnet",
       Event.loadModel "vgg16", Event.decodeImage "vgg16"] :=
  ⟨rfl, rfl⟩

/-- C5 (amended): for every undecodable input, each variant's own predict
call fails at its own decode step after that variant's model load has already
run; both failures are caught per variant, and the call returns normally with
two `None` entries — no whole-call abort occurs. -/
theorem C5_amended_thm (e : PyError)
    (f1 f2 : Tensor3 → Except PyError (ℚ × ℚ)) (d : Durations) (t0 : ℚ) :
    predict_with_both_models ⟨.ok (), .ok (), .error e, f1, f2, d, t0⟩ =
      ([("regnet", none), ("vgg16", none)],
       [Event.loadModel "regnet", Event.decodeImage "regnet",
        Event.loadModel "vgg16", Event.decodeImage "vgg16"]) := rfl

/-! ## Claim C7 -/

theorem loadCount_append (v : String) (a b : List Event) :
    loadCount v (a ++ b) = loadCount v a + loadCount v b := by
  induction a with
  | nil => simp [loadCount]
  | cons e es ih =>
      cases e with
      | loadModel w => simp [loadCount, ih]; omega
      | decodeImage w => simp [loadCount, ih]
      | forwardPass w => simp [loadCount, ih]

theorem loadCount_predict (v mt : String) (dec : Except PyError RawImage)
    (f : Tensor3 → Except PyError (ℚ × ℚ)) (d : Durations) (t0 : ℚ) :
    loadCount v (OralCancerModel.predict mt dec f d t0).2 = 0 := by
  cases dec with
  | error e => rfl
  | ok img =>
      simp only [OralCancerModel.predict]
      cases hf : f (preprocessForVariant mt img) with
      | error e => simp [hf, loadCount]
      | ok p =>
          obtain ⟨p0, p1⟩ := p
          simp [hf, loadCount]

theorem loadCount_tryVariant (v w : String) (l : Except PyError Unit)
    (dec : Except PyError RawImage) (f : Tensor3 → Except PyError (ℚ × ℚ))
    (d : Durations) (t0 : ℚ) :
    loadCount v (tryVariant w l dec f d t0).2 = if w = v then 1 else 0 := by
  cases l with
  | error e => simp [tryVariant, OralCancerModel.construct, loadCount]
  | ok u =>
      simp [tryVariant, OralCancerModel.construct, loadCount_append, loadCount,
        loadCount_predict]

theorem loadCount_ensemble (v : String) (env : EnsembleEnv) :
    loadCount v (predict_with_both_models env).2 =
      (if "regnet" = v then 1 else 0) + (if "vgg16" = v then 1 else 0) := by
  simp [predict_with_both_models, loadCount_append, loadCount_tryVariant]

/-- C7 (claim as stated, refuted): in a process making two successive
`predict_with_both_models` calls with every load succeeding, the regnet
checkpoint is loaded twice — not "at most once per process": there is no
cache, and each call constructs fresh `OralCancerModel` objects. -/
theorem C7_counterexample :
    loadCount "regnet" (processTrace envAllOk 2) = 2 ∧
    ¬ (loadCount "regnet" (processTrace envAllOk 2) ≤ 1) := by
  have h2 : loadCount "regnet" (processTrace envAllOk 2) = 2 := by
    simp [processTrace, loadCount_append, loadCount_ensemble]
  exact ⟨h2, by rw [h2]; omega⟩

/-- C7 (amended): no LoadedModel cache exists; every
`predict_with_both_models` call performs a fresh checkpoint-load attempt for
each variant, so after `n` calls each variant's checkpoint has been loaded
exactly `n` times. -/
theorem C7_amended_thm (env : EnsembleEnv) (n : Nat) :
    loadCount "regnet" (processTrace env n) = n ∧
    loadCount "vgg16" (processTrace env n) = n := by
  induction n with
  | zero => exact ⟨rfl, rfl⟩
  | succ n ih =>
      refine ⟨?_, ?_⟩ <;>
        simp [processTrace, loadCount_append, loadCount_ensemble, ih.1, ih.2]

/-! ## Claim C8 -/

/-- C8 (claim as stated, refuted): with decode, preprocessing and forward
pass each taking 1 time unit, the recorded processing time of a successful
prediction is 3, not the forward-pass duration 1 — `start_time` is read
before the image is decoded (line 165), so the interval includes decoding
and preprocessing. -/
theorem C8_counterexample :
    Except.map PredictionResult.processing_time
      (OralCancerModel.predict "regnet" (.ok imgEx) forwardOkEx dEx 0).1 = .ok 3 ∧
    dEx.forwardPass = 1 ∧ ((3 : ℚ) ≠ 1) := by
  refine ⟨?_, rfl, by norm_num⟩
  norm_num [OralCancerModel.predict, forwardOkEx, dEx, predictFromProbs, Except.map]

/-- C8 (amended): for every successful prediction, the recorded processing
time equals decode duration + preprocessing duration + forward-pass duration;
it is independent of the call's start clock `t0`, and model-load time (spent
in `__init__`, before `predict` begins) is excluded. -/
theorem C8_amended_thm (model_type : String) (img : RawImage)
    (f : Tensor3 → Except PyError (ℚ × ℚ)) (d : Durations) (t0 p0 p1 : ℚ)
    (hf : f (preprocessForVariant model_type img) = .ok (p0, p1)) :
    Except.map PredictionResult.processing_time
      (OralCancerModel.predict model_type (.ok img) f d t0).1 =
      .ok (d.decode + d.preprocess + d.forwardPass) := by
  simp only [OralCancerModel.predict, hf, Except.map, predictFromProbs]
  ring_nf

/-- C8 witness: the amended claim at concrete durations (1, 1, 1), start
clock 5 and softmax output (1/4, 3/4). -/
theorem C8_amended_witness :
    Except.map PredictionResult.processing_time
      (OralCancerModel.predict "regnet" (.ok imgEx) forwardOkEx dEx 5).1 =
      .ok (dEx.decode + dEx.preprocess + dEx.forwardPass) :=
  C8_amended_thm "regnet" imgEx forwardOkEx dEx 5 (1/4) (3/4) rfl

/-! ## Claim C6 -/

theorem lookup_key_in_middle (pre post : List (String × TorchValue))
    (k : String) (v : TorchValue) (hpre : pre.lookup k = none) :
    (pre ++ (k, v) :: post).lookup k = some v := by
  induction pre with
  | nil => simp [List.lookup]
  | cons hd tl ih =>
      obtain ⟨k1, v1⟩ := hd
      simp only [List.cons_append, List.lookup] at hpre ⊢
      cases h : (k == k1) with
      | true => rw [h] at hpre; simp at hpre
      | false => rw [h] at hpre; exact ih hpre

/-- C6: the checkpoint loader accepts both container shapes structurally.
For a state dict `W` shape-compatible with the constructed architecture
(and, as for the real architectures, not itself containing a parameter named
`model_state_dict`), loading the raw mapping `W` and loading a wrapped
container holding `W` under the key `model_state_dict` alongside arbitrary
other metadata both succeed and install the identical weights `W`.  The
loader sees only the loaded value, never a filename. -/
theorem C6_thm (arch : Arch) (W metaPre metaPost : List (String × TorchValue))
    (hW : W.lookup "model_state_dict" = none)
    (hpre : metaPre.lookup "model_state_dict" = none)
    (hmatch : stateDictMatches arch W = true) :
    load_checkpoint arch (.dict W) = .ok W ∧
    load_checkpoint arch
      (.dict (metaPre ++ ("model_state_dict", .dict W) :: metaPost)) = .ok W := by
  constructor
  · simp [load_checkpoint, selectStateDict, hW, load_state_dict, hmatch]
  · simp [load_checkpoint, selectStateDict,
      lookup_key_in_middle metaPre metaPost "model_state_dict" (.dict W) hpre,
      load_state_dict, hmatch]

/-- A two-parameter architecture used as a concrete witness. -/
def archEx : Arch := ⟨[("backbone.weight", [2, 3]), ("classifier.bias", [2])]⟩

/-- A state dict shape-compatible with `archEx`. -/
def sdEx : List (String × TorchValue) :=
  [("backbone.weight", .tensor [2, 3] [1, 2, 3, 4, 5, 6]),
   ("classifier.bias", .tensor [2] [7, 8])]

/-- C6 witness: the theorem at the concrete architecture and weights, with
the wrapped container carrying an epoch entry before the state-dict key. -/
theorem C6_witness :
    load_checkpoint archEx (.dict sdEx) = .ok sdEx ∧
    load_checkpoint archEx
      (.dict ([("epoch", .num 12)] ++ ("model_state_dict", .dict sdEx) :: [])) =
      .ok sdEx :=
  C6_thm archEx sdEx [("epoch", .num 12)] [] rfl rfl rfl
